import Mathlib

/-!
Verification of the user-events pipeline (`dags/scripts/s3_to_mongo_download.py`).

The development shallowly embeds the data-normalization and
environment-partitioning core of the pipeline:

* JSON values and records (a record is a JSON object, modelled as an
  association list from string keys to JSON values);
* `clean_data` / `clean_column_names`: flattening via
  `pd.json_normalize(..., sep='_')`, stripping of `$` from column names,
  dropping of the fixed exclusion list, and snake-case renaming;
* `apply_domain` / `create_domain` / `separate_environments`: extraction of
  the URL host via `urllib.parse.urlparse(...).netloc` and partitioning of
  records into the staging / beta / production buckets;
* `upload_to_mongo` / `process_and_upload_data` / `download_to_mongo`: the
  MongoDB load stage, with the collection state made explicit, the ordered
  `insert_many` semantics of the unique `insert_id` index (including
  pymongo's rejection of an empty documents list), the swallowing of
  duplicate-key write errors (code 11000), and the structured status result
  returned to the scheduler.

Machine reals/floats and the pandas dataframe carrier are not needed by the
verified properties; records are carried as sparse association lists.  A
field missing from one record while the batch's frame has the column is the
`NaN`/`null` fill of pandas (a missing `insert_id` indexes as `null`, a
missing URL value is not a string).  A column missing from the whole batch
(the `KeyError` in `apply_domain`), an empty `insert_many` (pymongo's
`TypeError`), and a day with no objects under the prefix (the `KeyError` on
`Contents`) are real error paths of the source and are modelled as explicit
`Option` failures at the point where the exception is raised.
-/

/-- JSON values, as read from the line-delimited JSON exports. -/
inductive Json where
  | null
  | bool (b : Bool)
  | num (n : Int)
  | str (s : String)
  | arr (elems : List Json)
  | obj (fields : List (String × Json))

/-- A record (one event): a JSON object, as an association list. -/
abbrev JsonRecord := List (String × Json)

mutual

/-- Structural equality of JSON values, as MongoDB compares `insert_id`
values when enforcing the unique index. -/
def Json.beq : Json → Json → Bool
  | Json.null, Json.null => true
  | Json.bool a, Json.bool b => a == b
  | Json.num a, Json.num b => a == b
  | Json.str a, Json.str b => a == b
  | Json.arr xs, Json.arr ys => Json.beqList xs ys
  | Json.obj xs, Json.obj ys => Json.beqFields xs ys
  | _, _ => false

/-- Elementwise equality of JSON arrays. -/
def Json.beqList : List Json → List Json → Bool
  | [], [] => true
  | x :: xs, y :: ys => Json.beq x y && Json.beqList xs ys
  | _, _ => false

/-- Elementwise equality of JSON object fields. -/
def Json.beqFields : List (String × Json) → List (String × Json) → Bool
  | [], [] => true
  | (k1, v1) :: xs, (k2, v2) :: ys => k1 == k2 && Json.beq v1 v2 && Json.beqFields xs ys
  | _, _ => false

end

mutual

theorem Json.beq_refl : (j : Json) → Json.beq j j = true
  | Json.null => rfl
  | Json.bool b => by simp [Json.beq]
  | Json.num n => by simp [Json.beq]
  | Json.str s => by simp [Json.beq]
  | Json.arr xs => by simp [Json.beq, Json.beqList_refl xs]
  | Json.obj xs => by simp [Json.beq, Json.beqFields_refl xs]

theorem Json.beqList_refl : (l : List Json) → Json.beqList l l = true
  | [] => rfl
  | x :: xs => by simp [Json.beqList, Json.beq_refl x, Json.beqList_refl xs]

theorem Json.beqFields_refl : (l : List (String × Json)) → Json.beqFields l l = true
  | [] => rfl
  | (k, v) :: xs => by simp [Json.beqFields, Json.beq_refl v, Json.beqFields_refl xs]

end

mutual

/-- Flattening of one value under key `k`, as `pd.json_normalize(..., sep='_')`
does: nested objects are descended into, joining parent and child keys with
an underscore; scalars and arrays are kept as they are. -/
def flattenVal (k : String) : Json → List (String × Json)
  | Json.obj fields => flattenFields k fields
  | v => [(k, v)]

/-- Flattening of the fields of a nested object under parent key `k`. -/
def flattenFields (k : String) : List (String × Json) → List (String × Json)
  | [] => []
  | (k2, v) :: rest => flattenVal (k ++ "_" ++ k2) v ++ flattenFields k rest

end

/-- Flattening of a whole record: top-level keys are not prefixed. -/
def flatten_record (r : JsonRecord) : JsonRecord :=
  r.flatMap (fun kv => flattenVal kv.1 kv.2)

/-- Python's `str.strip('$')`: remove every leading and every trailing `$`
character (line 70 of the source, `x.strip('$')`). -/
def stripDollar (s : String) : String :=
  String.mk ((((s.toList.dropWhile (fun c => c == '$')).reverse.dropWhile
    (fun c => c == '$')).reverse))

/-- The fixed exclusion list `cols_to_drop` (lines 72–76 of the source). -/
def cols_to_drop : List String :=
  ["app", "amplitude_event_type", "device_type", "device_carrier", "device_brand",
   "device_family", "device_manufacturer", "location_lat", "location_lng", "dma",
   "idfa", "adid", "library", "platform", "paying", "groups", "group_properties",
   "start_version", "version_name", "sample_rate", "is_attribution_event",
   "amplitude_attribution_ids", "event_properties_organizationId",
   "user_properties_organizationId"]

/-- The ASCII uppercase test of the regex `[A-Z]` used on line 88. -/
def pyIsUpper (c : Char) : Bool := 65 ≤ c.toNat && c.toNat ≤ 90

/-- ASCII lowercasing of one character, as Python's `str.lower()` acts on the
ASCII range. -/
def pyToLower (c : Char) : Char := if pyIsUpper c then Char.ofNat (c.toNat + 32) else c

/-- The substitution `re.compile(r'(?<!^)(?=[A-Z])').sub('_', name)` of
lines 88–90: an underscore is inserted before every uppercase letter that is
not the first character. -/
def insertUnd : List Char → List Char
  | [] => []
  | c :: cs => c :: cs.flatMap (fun d => if pyIsUpper d then ['_', d] else [d])

/-- Replacement of a literal period by an underscore
(`re.sub(r'\.', '_', name)`, line 91). -/
def dotRep (c : Char) : Char := if c == '.' then '_' else c

/-- The per-name body of `clean_column_names` (lines 88–92): insert an
underscore before each internal uppercase letter, lowercase the whole name,
then replace periods with underscores. -/
def clean_column_name (s : String) : String :=
  String.mk (((insertUnd s.toList).map pyToLower).map dotRep)

/-- The record-level body of `clean_data` (lines 66–83): flatten with `_` as
separator, strip `$` from each key, drop the keys of `cols_to_drop` (exact
match, before any renaming), then rewrite each key with
`clean_column_name`. -/
def clean_record (r : JsonRecord) : JsonRecord :=
  (((flatten_record r).map (fun kv => (stripDollar kv.1, kv.2))).filter
    (fun kv => !(cols_to_drop.contains kv.1))).map
    (fun kv => (clean_column_name kv.1, kv.2))

/-- The function `clean_data` on a batch of records. -/
def clean_data (data_dict : List JsonRecord) : List JsonRecord :=
  data_dict.map clean_record

/-- The static staging domain list (line 18 of the source). -/
def STAGING_DOMAINS : List String := ["master.mwstream.com", "studio.mwstream.com"]

/-- The static beta domain list (line 19 of the source). -/
def BETA_DOMAINS : List String := ["beta-studio.mwstream.com", "beta-library.mwstream.com"]

/-- The static production domain list (line 20 of the source). -/
def PRODUCTION_DOMAINS : List String := ["studio.masterwizr.com", "stream.masterwizr.com"]

/-- Characters allowed in a URL scheme by `urllib.parse`
(letters, digits, `+`, `-`, `.`). -/
def isSchemeChar (c : Char) : Bool := c.isAlphanum || c == '+' || c == '-' || c == '.'

/-- Removal of a leading `scheme:` as `urllib.parse.urlsplit` does: if the
string has a colon at a positive position, starts with an ASCII letter, and
everything before the colon is a scheme character, the prefix up to and
including the colon is dropped. -/
def dropScheme (cs : List Char) : List Char :=
  match cs.findIdx? (fun c => c == ':') with
  | none => cs
  | some i =>
    if 0 < i
        && (match cs.head? with
            | some c => c.isAlpha && c.toNat < 128
            | none => false)
        && (cs.take i).all isSchemeChar
    then cs.drop (i + 1)
    else cs

/-- The network-location component read by `urllib.parse`: everything after
a leading `//` up to the first `/`, `?` or `#`. -/
def splitnetloc (cs : List Char) : List Char :=
  cs.takeWhile (fun c => !(c == '/') && !(c == '?') && !(c == '#'))

/-- The model of `urllib.parse.urlparse(url).netloc`: drop the scheme, then,
if the remainder starts with `//`, take the host part; otherwise the netloc
is empty. -/
def netloc (url : String) : String :=
  match dropScheme url.toList with
  | '/' :: '/' :: tail => String.mk (splitnetloc tail)
  | _ => ""

/-- Lookup of a field in a record: the value of a row at a column the
normalized frame carries.  A record that lacks the key while another record
of the batch has it is the `NaN`/`null` fill of pandas, modelled as `none`.
Whether the column exists at all is a batch-level question: it is checked
in `create_domain` below, where the source's row access can raise. -/
def lookupField (r : JsonRecord) (k : String) : Option Json :=
  List.lookup k r

/-- The function `apply_domain` (lines 105–110) on one row of a frame that
carries the `event_properties_url` column: if the row's value is a string,
its netloc; otherwise (`NaN`, `null`, a number, ...) `None`. -/
def apply_domain (row : JsonRecord) : Option String :=
  match lookupField row "event_properties_url" with
  | some (Json.str s) => some (netloc s)
  | _ => none

/-- Assignment of a column value on one row (`df['domain'] = ...` overwrites
any previous `domain` column). -/
def setField (r : JsonRecord) (k : String) (v : Json) : JsonRecord :=
  (r.filter (fun kv => !(kv.1 == k))) ++ [(k, v)]

/-- The row-level effect of `create_domain`: set the `domain` field from
`apply_domain`. -/
def create_domain_row (row : JsonRecord) : JsonRecord :=
  setField row "domain"
    (match apply_domain row with
     | some d => Json.str d
     | none => Json.null)

/-- Whether the normalized frame carries the `event_properties_url` column:
pandas materializes a column exactly when some record of the batch has the
key (the other rows are filled with `NaN`). -/
def has_url_column (df : List JsonRecord) : Bool :=
  df.any (fun r => (lookupField r "event_properties_url").isSome)

/-- The function `create_domain` (lines 112–114) on the whole frame.  When
no record of the batch carries `event_properties_url`, the frame has no
such column and `row['event_properties_url']` inside
`df.apply(apply_domain, axis=1)` raises `KeyError` — modelled as `none`,
the exception escaping to the caller's generic handler.  Otherwise every
row gets its `domain` value. -/
def create_domain (df : List JsonRecord) : Option (List JsonRecord) :=
  if has_url_column df then some (df.map create_domain_row) else none

/-- The membership test `df['domain'].isin(doms)` on one row: true exactly
when the `domain` value is a string member of the list (a null or missing
domain is in no list). -/
def domainIn (row : JsonRecord) (doms : List String) : Bool :=
  match lookupField row "domain" with
  | some (Json.str d) => doms.contains d
  | _ => false

/-- The function `separate_environments` (lines 96–103): add the `domain`
column — which raises (`none`) when the batch has no URL column — then
filter the staging, beta and production sub-sequences by membership of the
domain in each static list. -/
def separate_environments (df : List JsonRecord) :
    Option (List JsonRecord × List JsonRecord × List JsonRecord) :=
  match create_domain df with
  | none => none
  | some dfd =>
    some (dfd.filter (fun r => domainIn r STAGING_DOMAINS),
      dfd.filter (fun r => domainIn r BETA_DOMAINS),
      dfd.filter (fun r => domainIn r PRODUCTION_DOMAINS))

/-- One entry of `bwe.details['writeErrors']`: an error code and message. -/
structure WriteError where
  code : Nat
  errmsg : String

/-- The value under which a record is indexed by the unique `insert_id`
index: its `insert_id` field, with a missing field indexed as `null`
(MongoDB treats an absent indexed field as `null`). -/
def keyOf (r : JsonRecord) : Json :=
  (lookupField r "insert_id").getD Json.null

/-- Whether some stored document already carries the index key `k`. -/
def hasKey (docs : List JsonRecord) (k : Json) : Bool :=
  docs.any (fun d => Json.beq (keyOf d) k)

/-- The ordered server-side execution of a non-empty bulk insert under the
unique `insert_id` index (lines 125–126).  `insert_many` is ordered (the
pymongo default): documents are inserted serially, and the first rejected
document aborts the remaining inserts, surfacing one duplicate-key write
error (code 11000) in the resulting `BulkWriteError`. -/
def insert_many_loop : List JsonRecord → List JsonRecord → List JsonRecord × List WriteError
  | docs, [] => (docs, [])
  | docs, r :: rs =>
    if hasKey docs (keyOf r) then
      (docs, [⟨11000, "E11000 duplicate key error"⟩])
    else insert_many_loop (docs ++ [r]) rs

/-- pymongo's `collection.insert_many(records)`: an empty documents list is
rejected client-side with `TypeError('documents must be a non-empty list')`
before anything reaches the server — modelled as `none`; a non-empty list
runs the ordered bulk insert. -/
def insert_many (docs : List JsonRecord) :
    List JsonRecord → Option (List JsonRecord × List WriteError)
  | [] => none
  | r :: rs => some (insert_many_loop docs (r :: rs))

/-- The `except pymongo.bulk.BulkWriteError` handler (lines 127–132): each
write error with code 11000 is passed over silently; any other write error
has its message logged at error severity.  The result is the list of
messages logged at error severity. -/
def handle_write_errors (errs : List WriteError) : List String :=
  errs.filterMap (fun err => if err.code == 11000 then none else some err.errmsg)

/-- The observable outcome of one `upload_to_mongo` call: the final document
list of the target collection, the write errors raised by the bulk insert,
the messages logged at error severity, and the structured value returned by
the function (`some 500` exactly on the connection-failure path, line 135;
`none` otherwise — the function falls off the end returning `None`). -/
structure UploadResult where
  docs : List JsonRecord
  writeErrors : List WriteError
  errorLogs : List String
  status : Option Nat

/-- The function `upload_to_mongo` (lines 116–135) on one bucket.  `conn_ok`
tells whether the MongoDB client operations succeed for this call; on
connection failure the generic handler (lines 133–135) logs at error
severity and returns the 500 result, leaving the collection unchanged.
With the connection up, an empty bucket frame hits pymongo's empty
`insert_many` `TypeError`, which the same generic handler logs at error
severity and turns into the 500 result; otherwise the records are bulk
inserted under the unique `insert_id` index and duplicate-key write errors
are swallowed by the `BulkWriteError` handler. -/
def upload_to_mongo (conn_ok : Bool) (coll : List JsonRecord) (df : List JsonRecord) :
    UploadResult :=
  if conn_ok then
    match insert_many coll df with
    | some inserted => ⟨inserted.1, inserted.2, handle_write_errors inserted.2, none⟩
    | none => ⟨coll, [], ["TypeError: documents must be a non-empty list"], some 500⟩
  else
    ⟨coll, [], ["Failed to connect to mongo"], some 500⟩

/-- Pointwise update of the named collection of the document store. -/
def updateColl (db : String → List JsonRecord) (name : String)
    (docs : List JsonRecord) : String → List JsonRecord :=
  fun n => if n = name then docs else db n

/-- The function `process_and_upload_data` (lines 53–63): clean the batch,
separate the environments, and upload the staging, production and beta
frames in that order.  A `KeyError` raised by the environment separation
(no URL column in the batch) escapes before any upload is attempted —
modelled as `none`.  The return values of the three `upload_to_mongo` calls
are discarded by the source; the model keeps them in a trace (one entry per
attempted bucket, in call order) so the behavior of each call can be
stated. -/
def process_and_upload_data (conn_ok : String → Bool) (db : String → List JsonRecord)
    (data_dict : List JsonRecord) :
    Option ((String → List JsonRecord) × List (String × UploadResult)) :=
  match separate_environments (clean_data data_dict) with
  | none => none
  | some parts =>
    let r1 := upload_to_mongo (conn_ok "staging") (db "staging") parts.1
    let db1 := updateColl db "staging" r1.docs
    let r2 := upload_to_mongo (conn_ok "production") (db1 "production") parts.2.2
    let db2 := updateColl db1 "production" r2.docs
    let r3 := upload_to_mongo (conn_ok "beta") (db2 "beta") parts.2.1
    let db3 := updateColl db2 "beta" r3.docs
    some (db3, [("staging", r1), ("production", r2), ("beta", r3)])

/-- The read loop over the listed source files (lines 40–44): each source
either parses to a list of records (`pd.read_json(..., lines=True)`) or
fails; the loop raises at the first unparsable file, so the whole read
yields `none` whenever any source is bad. -/
def parse_sources_loop : List (Option (List JsonRecord)) → Option (List (List JsonRecord))
  | [] => some []
  | none :: _ => none
  | some df :: rest => (parse_sources_loop rest).map (fun l => df :: l)

/-- Listing and reading of the day's sources (lines 38–44).  On a day with
no objects under the prefix the `list_objects` reply has no `Contents` key,
so the subscript on line 40 raises `KeyError` — modelled as `none`.
Otherwise the files are read in order by `parse_sources_loop`. -/
def parse_sources (sources : List (Option (List JsonRecord))) :
    Option (List (List JsonRecord)) :=
  match sources with
  | [] => none
  | _ :: _ => parse_sources_loop sources

/-- The structured result `download_to_mongo` returns to the scheduler. -/
structure RunResult where
  statusCode : Nat
  message : String

/-- The function `download_to_mongo` (lines 26–51).  The day's sources are
listed and parsed; a missing `Contents` key or any parse failure raises, is
caught by the handler (lines 48–51), is logged, and the 500 result is
returned with nothing uploaded.  A `KeyError` escaping the classification
inside `process_and_upload_data` reaches the same handler, again yielding
the 500 result with no upload performed.  Otherwise the batch is processed
and the 200 success result is returned — exceptions inside
`upload_to_mongo` are caught there and its return value is discarded, so
the load stage itself never changes the run's status. -/
def download_to_mongo (conn_ok : String → Bool) (db : String → List JsonRecord)
    (sources : List (Option (List JsonRecord))) :
    (String → List JsonRecord) × List (String × UploadResult) × RunResult :=
  match parse_sources sources with
  | none => (db, [], ⟨500, "failed"⟩)
  | some dfs =>
    match process_and_upload_data conn_ok db dfs.flatten with
    | none => (db, [], ⟨500, "failed"⟩)
    | some (db2, trace) => (db2, trace, ⟨200, "success"⟩)

theorem insert_many_loop_mem_docs (batch : List JsonRecord) (coll : List JsonRecord)
    (d : JsonRecord) (hd : d ∈ coll) : d ∈ (insert_many_loop coll batch).1 := by
  induction batch generalizing coll with
  | nil => simpa [insert_many_loop] using hd
  | cons r rs ih =>
    simp only [insert_many_loop]
    split
    · simpa using hd
    · exact ih (coll ++ [r]) (List.mem_append_left _ hd)

theorem hasKey_of_mem (docs : List JsonRecord) (r : JsonRecord) (h : r ∈ docs) :
    hasKey docs (keyOf r) = true := by
  simp only [hasKey, List.any_eq_true]
  exact ⟨r, h, Json.beq_refl _⟩

theorem insert_many_loop_codes (batch : List JsonRecord) (coll : List JsonRecord) :
    ∀ e ∈ (insert_many_loop coll batch).2, e.code = 11000 := by
  induction batch generalizing coll with
  | nil => simp [insert_many_loop]
  | cons r rs ih =>
    simp only [insert_many_loop]
    split
    · simp
    · exact ih (coll ++ [r])

theorem insert_many_loop_decomp (batch : List JsonRecord) (coll : List JsonRecord) :
    ∃ pre post, batch = pre ++ post ∧ (insert_many_loop coll batch).1 = coll ++ pre := by
  induction batch generalizing coll with
  | nil => exact ⟨[], [], rfl, by simp [insert_many_loop]⟩
  | cons r rs ih =>
    simp only [insert_many_loop]
    split
    · exact ⟨[], r :: rs, rfl, by simp⟩
    · obtain ⟨pre, post, h1, h2⟩ := ih (coll ++ [r])
      exact ⟨r :: pre, post, by simp [h1], by simp [h2]⟩

theorem insert_many_loop_rerun (coll batch : List JsonRecord) :
    (insert_many_loop (insert_many_loop coll batch).1 batch).1
      = (insert_many_loop coll batch).1 := by
  cases batch with
  | nil => simp [insert_many_loop]
  | cons r rs =>
    have hk : hasKey (insert_many_loop coll (r :: rs)).1 (keyOf r) = true := by
      simp only [insert_many_loop]
      split
      · simpa using (by assumption : hasKey coll (keyOf r) = true)
      · exact hasKey_of_mem _ _ (insert_many_loop_mem_docs _ _ _ (by simp))
    simp only [insert_many_loop] at hk ⊢
    rw [if_pos hk]

theorem handle_write_errors_eq_nil (errs : List WriteError)
    (h : ∀ e ∈ errs, e.code = 11000) : handle_write_errors errs = [] := by
  induction errs with
  | nil => rfl
  | cons e es ih =>
    have he : e.code = 11000 := h e (by simp)
    simp only [handle_write_errors, List.filterMap_cons, he]
    simpa [handle_write_errors] using ih (fun x hx => h x (by simp [hx]))

theorem lookup_append_fresh (l : List (String × Json)) (k : String) (v : Json)
    (h : ∀ kv ∈ l, kv.1 ≠ k) : List.lookup k (l ++ [(k, v)]) = some v := by
  induction l with
  | nil => simp [List.lookup]
  | cons kv l ih =>
    obtain ⟨k1, v1⟩ := kv
    have hk : (k == k1) = false := by
      simp only [beq_eq_false_iff_ne, ne_eq]
      exact fun he => (h (k1, v1) (by simp)) he.symm
    simp only [List.cons_append, List.lookup, hk]
    exact ih (fun kv hkv => h kv (by simp [hkv]))

theorem lookupField_setField (r : JsonRecord) (k : String) (v : Json) :
    lookupField (setField r k v) k = some v := by
  unfold lookupField setField
  apply lookup_append_fresh
  intro kv hkv
  have h2 := (List.mem_filter.mp hkv).2
  simpa using h2

theorem domainIn_spec (row : JsonRecord) (doms : List String)
    (h : domainIn row doms = true) :
    ∃ d, lookupField row "domain" = some (Json.str d) ∧ d ∈ doms := by
  unfold domainIn at h
  split at h
  · next d heq => exact ⟨d, heq, by simpa using h⟩
  · exact absurd h (by simp)

theorem mem_bucket_domain (dfd : List JsonRecord) (doms : List String)
    (x : JsonRecord) (h : x ∈ dfd.filter (fun r => domainIn r doms)) :
    ∃ d, lookupField x "domain" = some (Json.str d) ∧ d ∈ doms :=
  domainIn_spec x doms (List.mem_filter.mp h).2

theorem toNat_ofNat_valid (n : Nat) (h : n < 55296) : (Char.ofNat n).toNat = n := by
  have hv : Nat.isValidChar n := Or.inl h
  simp [Char.ofNat, hv, Char.toNat, Char.ofNatAux, UInt32.toNat, BitVec.toNat_ofNatLt]

theorem pyIsUpper_pyToLower (c : Char) : pyIsUpper (pyToLower c) = false := by
  unfold pyToLower
  by_cases h : pyIsUpper c = true
  · simp only [h, if_true]
    unfold pyIsUpper at h ⊢
    have hb : 65 ≤ c.toNat ∧ c.toNat ≤ 90 := by
      simpa [Bool.and_eq_true, decide_eq_true_eq] using h
    have hlt : c.toNat + 32 < 55296 := by omega
    rw [toNat_ofNat_valid _ hlt]
    simp
    omega
  · simp only [Bool.not_eq_true] at h
    simp [h]

theorem pyToLower_toNat (c : Char) (h : pyIsUpper c = true) :
    (pyToLower c).toNat = c.toNat + 32 := by
  unfold pyToLower
  rw [if_pos h]
  have hb : 65 ≤ c.toNat ∧ c.toNat ≤ 90 := by
    simpa [pyIsUpper, Bool.and_eq_true, decide_eq_true_eq] using h
  exact toNat_ofNat_valid _ (by omega)

theorem dotRep_eq_dollar (c : Char) (h : dotRep (pyToLower c) = '$') : c = '$' := by
  unfold dotRep at h
  split at h
  · exact absurd h (by decide)
  · by_cases hu : pyIsUpper c = true
    · have ht := pyToLower_toNat c hu
      rw [h] at ht
      have hb : 65 ≤ c.toNat := by
        have := hu
        unfold pyIsUpper at this
        simp only [Bool.and_eq_true, decide_eq_true_eq] at this
        exact this.1
      have h36 : ('$' : Char).toNat = 36 := by decide
      omega
    · unfold pyToLower at h
      rw [if_neg hu] at h
      exact h

theorem clean_column_name_chars (s : String) (c : Char)
    (hc : c ∈ (clean_column_name s).toList) : pyIsUpper c = false ∧ c ≠ '.' := by
  unfold clean_column_name at hc
  have hc2 : c ∈ ((insertUnd s.toList).map pyToLower).map dotRep := hc
  obtain ⟨c1, hc1, rfl⟩ := List.mem_map.mp hc2
  obtain ⟨c0, hc0, rfl⟩ := List.mem_map.mp hc1
  constructor
  · unfold dotRep
    split
    · decide
    · exact pyIsUpper_pyToLower c0
  · unfold dotRep
    split
    · decide
    · next hne => simpa using hne

theorem insertUnd_head (l : List Char) : (insertUnd l).head? = l.head? := by
  cases l <;> rfl

theorem dropWhile_head_not (p : Char → Bool) (l : List Char) (c : Char)
    (h : (l.dropWhile p).head? = some c) : p c = false := by
  induction l with
  | nil => simp [List.dropWhile] at h
  | cons a l ih =>
    by_cases hp : p a = true
    · rw [List.dropWhile_cons, if_pos hp] at h
      exact ih h
    · rw [List.dropWhile_cons, if_neg hp] at h
      simp only [List.head?_cons, Option.some.injEq] at h
      rw [← h]
      exact Bool.eq_false_iff.mpr hp

theorem dropWhile_decomp (p : Char → Bool) (l : List Char) :
    ∃ u, l = u ++ l.dropWhile p := by
  induction l with
  | nil => exact ⟨[], rfl⟩
  | cons a l ih =>
    by_cases hp : p a = true
    · obtain ⟨u, hu⟩ := ih
      refine ⟨a :: u, ?_⟩
      rw [List.dropWhile_cons, if_pos hp, List.cons_append, ← hu]
    · exact ⟨[], by rw [List.dropWhile_cons, if_neg hp]; rfl⟩

theorem stripDollar_head (s : String) (c : Char)
    (h : (stripDollar s).toList.head? = some c) : (c == '$') = false := by
  unfold stripDollar at h
  have h2 : (((s.toList.dropWhile (fun c => c == '$')).reverse.dropWhile
      (fun c => c == '$')).reverse).head? = some c := h
  set m := s.toList.dropWhile (fun c => c == '$') with hm
  obtain ⟨u, hu⟩ := dropWhile_decomp (fun c => c == '$') m.reverse
  have hm2 : m = (m.reverse.dropWhile (fun c => c == '$')).reverse ++ u.reverse := by
    have h3 := congrArg List.reverse hu
    simpa [List.reverse_append] using h3
  have hc : m.head? = some c := by
    rw [hm2]
    cases hd : (m.reverse.dropWhile (fun c => c == '$')).reverse with
    | nil => rw [hd] at h2; simp at h2
    | cons x xs =>
      rw [hd] at h2
      simp only [List.head?_cons, Option.some.injEq] at h2
      simp [h2]
  rw [hm] at hc
  exact dropWhile_head_not (fun x => x == '$') s.toList c hc

theorem clean_column_name_strip_head (k : String) (c : Char)
    (h : (clean_column_name (stripDollar k)).toList.head? = some c) : c ≠ '$' := by
  unfold clean_column_name at h
  have h2 : ((((insertUnd (stripDollar k).toList).map pyToLower).map dotRep)).head?
      = some c := h
  rw [List.head?_map, List.head?_map, insertUnd_head] at h2
  cases h0 : (stripDollar k).toList.head? with
  | none => rw [h0] at h2; simp at h2
  | some c0 =>
    rw [h0] at h2
    simp only [Option.map_some', Option.some.injEq] at h2
    intro he
    rw [he] at h2
    have hc0 : c0 = '$' := dotRep_eq_dollar c0 h2
    have hstrip := stripDollar_head k c0 h0
    rw [hc0] at hstrip
    simp at hstrip

theorem parse_sources_loop_none (sources : List (Option (List JsonRecord)))
    (h : none ∈ sources) : parse_sources_loop sources = none := by
  induction sources with
  | nil => simp at h
  | cons s rest ih =>
    cases s with
    | none => rfl
    | some df =>
      have hr : none ∈ rest := by
        cases List.mem_cons.mp h with
        | inl he => exact absurd he (by simp)
        | inr hr => exact hr
      simp [parse_sources_loop, ih hr]

theorem parse_sources_none (sources : List (Option (List JsonRecord)))
    (h : none ∈ sources) : parse_sources sources = none := by
  cases sources with
  | nil => simp at h
  | cons s rest => exact parse_sources_loop_none _ h

/-- C1: loading the same batch twice into a bucket's collection yields the
same final record set as loading it once, and every duplicate `insert_id`
rejection on the second pass is absorbed without surfacing an error: the
second pass changes no document, raises only duplicate-key (11000) write
errors, and none of them is logged at error severity; for a non-empty batch
the second pass returns no failure at all.  (An empty batch never reaches
the bulk insert: pymongo's empty-list `TypeError` is logged and yields the
500 return on both passes — but that path produces no duplicate rejections
and leaves the record set unchanged, so the claim's record-set and
rejection-absorption guarantees still hold.) -/
theorem upload_to_mongo_idempotent (coll batch : List JsonRecord) :
    (upload_to_mongo true (upload_to_mongo true coll batch).docs batch).docs
      = (upload_to_mongo true coll batch).docs
    ∧ (∀ e ∈ (upload_to_mongo true (upload_to_mongo true coll batch).docs batch).writeErrors,
        e.code = 11000)
    ∧ handle_write_errors
        (upload_to_mongo true (upload_to_mongo true coll batch).docs batch).writeErrors = []
    ∧ (batch ≠ [] →
        (upload_to_mongo true (upload_to_mongo true coll batch).docs batch).errorLogs = []
        ∧ (upload_to_mongo true (upload_to_mongo true coll batch).docs batch).status
          = none) := by
  cases batch with
  | nil =>
    exact ⟨rfl, fun e he => absurd he (List.not_mem_nil e), rfl, fun h => absurd rfl h⟩
  | cons r rs =>
    refine ⟨?_, ?_, ?_, fun _ => ⟨?_, rfl⟩⟩
    · exact insert_many_loop_rerun coll (r :: rs)
    · exact insert_many_loop_codes (r :: rs) _
    · exact handle_write_errors_eq_nil _ (insert_many_loop_codes (r :: rs) _)
    · exact handle_write_errors_eq_nil _ (insert_many_loop_codes (r :: rs) _)

/-- C2 counterexample: the bulk insert is ordered, so a duplicate-key
rejection does prevent the remaining records of the batch from being
inserted.  The collection holds a document with `insert_id` 1; the batch is
a duplicate of it followed by a fresh record with `insert_id` 2.  The
duplicate is swallowed silently (no error log, no failure status), but the
fresh record is also absent from the final collection even though its
`insert_id` duplicated nothing. -/
theorem upload_to_mongo_ordered_stop_cex :
    hasKey [[("insert_id", Json.num 1)]] (keyOf [("insert_id", Json.num 2)]) = false
    ∧ (upload_to_mongo true [[("insert_id", Json.num 1)]]
        [[("insert_id", Json.num 1)], [("insert_id", Json.num 2)]]).docs
      = [[("insert_id", Json.num 1)]]
    ∧ hasKey (upload_to_mongo true [[("insert_id", Json.num 1)]]
        [[("insert_id", Json.num 1)], [("insert_id", Json.num 2)]]).docs
        (keyOf [("insert_id", Json.num 2)]) = false
    ∧ (upload_to_mongo true [[("insert_id", Json.num 1)]]
        [[("insert_id", Json.num 1)], [("insert_id", Json.num 2)]]).errorLogs = []
    ∧ (upload_to_mongo true [[("insert_id", Json.num 1)]]
        [[("insert_id", Json.num 1)], [("insert_id", Json.num 2)]]).status = none :=
  ⟨rfl, rfl, rfl, rfl, rfl⟩

/-- C2 amended: a write rejected because its `insert_id` duplicates an
existing record is swallowed silently — the only write errors a load can
produce are duplicate-key errors (code 11000) and none of them is logged at
error severity, and a non-empty batch's load returns no failure status and
logs nothing — but because the bulk insert is ordered, the records actually
inserted are exactly a prefix of the batch: the records after the first
rejected one are not attempted.  Independently, an empty bucket frame never
reaches the bulk insert: pymongo rejects the empty documents list with a
`TypeError`, which is logged at error severity and yields the 500 return
with the collection unchanged. -/
theorem upload_to_mongo_duplicates_silent (coll batch : List JsonRecord) :
    (∀ e ∈ (upload_to_mongo true coll batch).writeErrors, e.code = 11000)
    ∧ handle_write_errors (upload_to_mongo true coll batch).writeErrors = []
    ∧ (batch ≠ [] → (upload_to_mongo true coll batch).status = none
        ∧ (upload_to_mongo true coll batch).errorLogs = [])
    ∧ (batch = [] → (upload_to_mongo true coll batch).status = some 500
        ∧ (upload_to_mongo true coll batch).errorLogs
          = ["TypeError: documents must be a non-empty list"]
        ∧ (upload_to_mongo true coll batch).docs = coll)
    ∧ ∃ pre post, batch = pre ++ post
        ∧ (upload_to_mongo true coll batch).docs = coll ++ pre := by
  cases batch with
  | nil =>
    refine ⟨fun e he => absurd he (List.not_mem_nil e), rfl,
      fun h => absurd rfl h, fun _ => ⟨rfl, rfl, rfl⟩,
      ⟨[], [], rfl, by simp [upload_to_mongo, insert_many]⟩⟩
  | cons r rs =>
    refine ⟨insert_many_loop_codes (r :: rs) coll,
      handle_write_errors_eq_nil _ (insert_many_loop_codes (r :: rs) coll),
      fun _ => ⟨rfl, handle_write_errors_eq_nil _ (insert_many_loop_codes (r :: rs) coll)⟩,
      fun h => absurd h (by simp),
      insert_many_loop_decomp (r :: rs) coll⟩

/-- C3 counterexample: a connection-establishment failure during the
staging load does not abort the load stage for the remaining buckets.  With
the staging connection down and the others up, all three buckets are still
attempted in order, and the production bucket's collection receives the
batch's production record after the staging failure. -/
theorem connection_failure_subsequent_buckets_cex :
    (fun n => !(n == "staging")) "staging" = false
    ∧ (process_and_upload_data (fun n => !(n == "staging"))
        (fun _ => ([] : List JsonRecord))
        [[("insert_id", Json.num 7),
          ("event_properties",
            Json.obj [("url", Json.str "https://studio.masterwizr.com/x")])]]).map
        (fun p => (p.2.map Prod.fst, p.1 "production"))
      = some (["staging", "production", "beta"],
          [[("insert_id", Json.num 7),
            ("event_properties_url", Json.str "https://studio.masterwizr.com/x"),
            ("domain", Json.str "studio.masterwizr.com")]]) :=
  ⟨rfl, rfl⟩

/-- C3 amended: a connection-establishment failure during a bucket's load
is reported (the 500 result is returned by that call and a message is
logged at error severity) and aborts that bucket's load alone — its
collection is unchanged — while the load of every bucket, the failed one
included, is still attempted (the trace names all three buckets in call
order). -/
theorem connection_failure_single_bucket (conn_ok : String → Bool)
    (db : String → List JsonRecord) (data_dict : List JsonRecord) (name : String)
    (db2 : String → List JsonRecord) (trace : List (String × UploadResult))
    (hrun : process_and_upload_data conn_ok db data_dict = some (db2, trace))
    (h1 : name ∈ ["staging", "production", "beta"]) (h2 : conn_ok name = false) :
    db2 name = db name
    ∧ (∃ res, (name, res) ∈ trace
        ∧ res.status = some 500 ∧ res.errorLogs = ["Failed to connect to mongo"])
    ∧ trace.map Prod.fst = ["staging", "production", "beta"] := by
  simp only [process_and_upload_data] at hrun
  split at hrun
  · exact absurd hrun (by simp)
  · rw [Option.some.injEq, Prod.mk.injEq] at hrun
    obtain ⟨hdb, htr⟩ := hrun
    subst hdb
    subst htr
    simp only [List.mem_cons, List.not_mem_nil, or_false] at h1
    rcases h1 with h1 | h1 | h1 <;> subst h1 <;>
      simp [upload_to_mongo, h2, updateColl]

/-- Witness for the amended C3 theorem at a concrete input whose
classification succeeds. -/
theorem connection_failure_single_bucket_witness :
    ("staging" ∈ ["staging", "production", "beta"]
      ∧ (fun (_ : String) => false) "staging" = false)
    ∧ ∃ db2 trace,
        process_and_upload_data (fun _ => false) (fun _ => ([] : List JsonRecord))
          [[("event_properties_url", Json.str "u")]] = some (db2, trace)
        ∧ (db2 "staging" = (fun (_ : String) => ([] : List JsonRecord)) "staging"
          ∧ (∃ res, ("staging", res) ∈ trace ∧ res.status = some 500
              ∧ res.errorLogs = ["Failed to connect to mongo"])
          ∧ trace.map Prod.fst = ["staging", "production", "beta"]) :=
  ⟨⟨by decide, rfl⟩, _, _, rfl,
    connection_failure_single_bucket (fun _ => false) (fun _ => ([] : List JsonRecord))
      [[("event_properties_url", Json.str "u")]] "staging" _ _ rfl (by decide) rfl⟩

/-- C4 counterexample: classification is not total.  For a record whose
`event_properties_url` field is absent, in a batch where no record carries
the field, the normalized frame has no such column: the row access inside
`df.apply(apply_domain, axis=1)` raises `KeyError` and classification
faults (`none`) instead of excluding the record from the buckets. -/
theorem classification_keyerror_cex :
    lookupField [("event_type", Json.str "click")] "event_properties_url" = none
    ∧ has_url_column [[("event_type", Json.str "click")]] = false
    ∧ create_domain [[("event_type", Json.str "click")]] = none
    ∧ separate_environments [[("event_type", Json.str "click")]] = none :=
  ⟨rfl, rfl, rfl, rfl⟩

/-- C4 amended: provided classification does not fault — the batch's frame
carries the `event_properties_url` column because some record has the field,
so `separate_environments` succeeds — a record whose own URL field is
absent (`NaN`) or holds a non-string value gets domain `None` and its
classified image is excluded from the staging, beta and production output
subsequences.  When no record of the batch carries the field, the row
access raises `KeyError` and the whole classification faults instead. -/
theorem null_domain_excluded (r : JsonRecord) (batch : List JsonRecord)
    (st be pr : List JsonRecord)
    (hsep : separate_environments batch = some (st, be, pr))
    (h : ∀ s, lookupField r "event_properties_url" ≠ some (Json.str s)) :
    apply_domain r = none
    ∧ create_domain_row r ∉ st
    ∧ create_domain_row r ∉ be
    ∧ create_domain_row r ∉ pr := by
  have hd : apply_domain r = none := by
    unfold apply_domain
    split
    · next s heq => exact absurd heq (h s)
    · rfl
  have hdom : lookupField (create_domain_row r) "domain" = some Json.null := by
    unfold create_domain_row
    rw [hd]
    exact lookupField_setField r "domain" Json.null
  unfold separate_environments at hsep
  split at hsep
  · exact absurd hsep (by simp)
  · rw [Option.some.injEq, Prod.mk.injEq] at hsep
    obtain ⟨hst, hsep2⟩ := hsep
    rw [Prod.mk.injEq] at hsep2
    obtain ⟨hbe, hpr⟩ := hsep2
    subst hst
    subst hbe
    subst hpr
    refine ⟨hd, ?_, ?_, ?_⟩ <;>
    · intro hmem
      obtain ⟨d, hd', _⟩ := mem_bucket_domain _ _ _ hmem
      rw [hdom] at hd'
      simp at hd'

/-- Witness for the amended C4 theorem: a record whose URL field holds the
number 123 makes the column exist, gets no domain, and lands in no
bucket. -/
theorem null_domain_excluded_witness :
    (separate_environments [[("event_properties_url", Json.num 123)]]
        = some ([], [], [])
      ∧ (∀ s, lookupField [("event_properties_url", Json.num 123)] "event_properties_url"
          ≠ some (Json.str s)))
    ∧ (apply_domain [("event_properties_url", Json.num 123)] = none
      ∧ create_domain_row [("event_properties_url", Json.num 123)]
          ∉ ([] : List JsonRecord)
      ∧ create_domain_row [("event_properties_url", Json.num 123)]
          ∉ ([] : List JsonRecord)
      ∧ create_domain_row [("event_properties_url", Json.num 123)]
          ∉ ([] : List JsonRecord)) :=
  ⟨⟨rfl, fun s hs => by simp [lookupField, List.lookup] at hs⟩,
   null_domain_excluded [("event_properties_url", Json.num 123)]
     [[("event_properties_url", Json.num 123)]] [] [] [] rfl
     (fun s hs => by simp [lookupField, List.lookup] at hs)⟩

/-- C5: every key of every record output by `clean_data` contains no ASCII
uppercase letter and no literal period, and does not start with the `$`
prefix marker. -/
theorem clean_data_column_invariant (data_dict : List JsonRecord) (r : JsonRecord)
    (hr : r ∈ clean_data data_dict) (kv : String × Json) (hkv : kv ∈ r) :
    (∀ c ∈ kv.1.toList, pyIsUpper c = false ∧ c ≠ '.')
    ∧ kv.1.toList.head? ≠ some '$' := by
  unfold clean_data at hr
  obtain ⟨raw, hraw, rfl⟩ := List.mem_map.mp hr
  unfold clean_record at hkv
  obtain ⟨kv1, hkv1, rfl⟩ := List.mem_map.mp hkv
  obtain ⟨kv0, hkv0, rfl⟩ := List.mem_map.mp (List.mem_filter.mp hkv1).1
  constructor
  · intro c hc
    exact clean_column_name_chars _ c hc
  · intro hhead
    exact clean_column_name_strip_head _ '$' hhead rfl

/-- Witness for the C5 theorem: the raw key `Ev.T` normalizes to `ev__t`,
which has no uppercase letter, no period and no leading dollar. -/
theorem clean_data_column_invariant_witness :
    ([("ev__t", Json.null)] ∈ clean_data [[("Ev.T", Json.null)]]
      ∧ (("ev__t", Json.null) ∈ ([("ev__t", Json.null)] : JsonRecord)))
    ∧ ((∀ c ∈ ("ev__t" : String).toList, pyIsUpper c = false ∧ c ≠ '.')
      ∧ ("ev__t" : String).toList.head? ≠ some '$') :=
  ⟨⟨List.mem_singleton.mpr rfl, List.mem_singleton.mpr rfl⟩,
   clean_data_column_invariant [[("Ev.T", Json.null)]] [("ev__t", Json.null)]
     (List.mem_singleton.mpr rfl) ("ev__t", Json.null) (List.mem_singleton.mpr rfl)⟩

/-- C6 counterexample: the exclusion list is applied before snake-case
renaming, so a raw key `App` is not dropped (it does not exactly match
`app`) and is then renamed to `app`, which is a name of the fixed exclusion
list — the normalizer's output does contain an excluded key. -/
theorem clean_data_exclusion_cex :
    clean_data [[("App", Json.num 1)]] = [[("app", Json.num 1)]]
    ∧ "app" ∈ cols_to_drop :=
  ⟨rfl, by decide⟩

/-- C6 amended: provided every flattened, `$`-stripped key of the batch is
already in the canonical naming convention (a fixed point of
`clean_column_name`), no key of any record output by `clean_data` is a name
of the fixed exclusion list.  In general the drop happens before the
renaming, so only a key whose pre-renaming form exactly matches an excluded
name is removed. -/
theorem clean_data_exclusion_canonical (data_dict : List JsonRecord)
    (h : ∀ raw ∈ data_dict, ∀ kv ∈ flatten_record raw,
        clean_column_name (stripDollar kv.1) = stripDollar kv.1)
    (r : JsonRecord) (hr : r ∈ clean_data data_dict)
    (kv : String × Json) (hkv : kv ∈ r) :
    kv.1 ∉ cols_to_drop := by
  unfold clean_data at hr
  obtain ⟨raw, hraw, rfl⟩ := List.mem_map.mp hr
  unfold clean_record at hkv
  obtain ⟨kv1, hkv1, rfl⟩ := List.mem_map.mp hkv
  have hkept := (List.mem_filter.mp hkv1).2
  obtain ⟨kv0, hkv0, rfl⟩ := List.mem_map.mp (List.mem_filter.mp hkv1).1
  have hfix := h raw hraw kv0 hkv0
  show clean_column_name (stripDollar kv0.1) ∉ cols_to_drop
  rw [hfix]
  simpa using hkept

/-- Witness for the amended C6 theorem: a batch whose keys `app` and
`event_type` are already canonical keeps no excluded key (`app` is dropped,
`event_type` survives and is not excluded). -/
theorem clean_data_exclusion_canonical_witness :
    (∀ raw ∈ [[("app", Json.num 1), ("event_type", Json.num 2)]],
        ∀ kv ∈ flatten_record raw,
          clean_column_name (stripDollar kv.1) = stripDollar kv.1)
    ∧ ([("event_type", Json.num 2)]
        ∈ clean_data [[("app", Json.num 1), ("event_type", Json.num 2)]])
    ∧ (("event_type", Json.num 2) ∈ ([("event_type", Json.num 2)] : JsonRecord))
    ∧ "event_type" ∉ cols_to_drop :=
  ⟨by decide, List.mem_singleton.mpr rfl, List.mem_singleton.mpr rfl,
   clean_data_exclusion_canonical [[("app", Json.num 1), ("event_type", Json.num 2)]]
     (by decide) [("event_type", Json.num 2)] (List.mem_singleton.mpr rfl)
     ("event_type", Json.num 2) (List.mem_singleton.mpr rfl)⟩

/-- C7: when the three static domain lists are pairwise disjoint, no record
appears in more than one of the bucket output subsequences produced by a
successful `separate_environments` run. -/
theorem separate_environments_disjoint_buckets
    (h1 : ∀ d, d ∈ STAGING_DOMAINS → d ∉ BETA_DOMAINS)
    (h2 : ∀ d, d ∈ STAGING_DOMAINS → d ∉ PRODUCTION_DOMAINS)
    (h3 : ∀ d, d ∈ BETA_DOMAINS → d ∉ PRODUCTION_DOMAINS)
    (batch : List JsonRecord) (st be pr : List JsonRecord)
    (hsep : separate_environments batch = some (st, be, pr)) (x : JsonRecord) :
    ¬(x ∈ st ∧ x ∈ be) ∧ ¬(x ∈ st ∧ x ∈ pr) ∧ ¬(x ∈ be ∧ x ∈ pr) := by
  unfold separate_environments at hsep
  split at hsep
  · exact absurd hsep (by simp)
  · next dfd heq =>
    rw [Option.some.injEq, Prod.mk.injEq] at hsep
    obtain ⟨hst, hsep2⟩ := hsep
    rw [Prod.mk.injEq] at hsep2
    obtain ⟨hbe, hpr⟩ := hsep2
    subst hst
    subst hbe
    subst hpr
    have key : ∀ domsA domsB : List String, (∀ d, d ∈ domsA → d ∉ domsB) →
        x ∈ dfd.filter (fun r => domainIn r domsA) →
        x ∈ dfd.filter (fun r => domainIn r domsB) → False := by
      intro A B hAB hA hB
      obtain ⟨d1, hl1, hm1⟩ := mem_bucket_domain _ _ _ hA
      obtain ⟨d2, hl2, hm2⟩ := mem_bucket_domain _ _ _ hB
      rw [hl1] at hl2
      have hdd : d1 = d2 := by simpa using hl2
      exact hAB d1 hm1 (hdd ▸ hm2)
    exact ⟨fun ⟨ha, hb⟩ => key _ _ h1 ha hb,
      fun ⟨ha, hb⟩ => key _ _ h2 ha hb,
      fun ⟨ha, hb⟩ => key _ _ h3 ha hb⟩

/-- Witness for the C7 theorem: the three static lists are disjoint, so the
conclusion holds for a concrete classifiable batch and record. -/
theorem separate_environments_disjoint_buckets_witness :
    ((∀ d, d ∈ STAGING_DOMAINS → d ∉ BETA_DOMAINS)
      ∧ (∀ d, d ∈ STAGING_DOMAINS → d ∉ PRODUCTION_DOMAINS)
      ∧ (∀ d, d ∈ BETA_DOMAINS → d ∉ PRODUCTION_DOMAINS)
      ∧ separate_environments [[("event_properties_url", Json.str "u")]]
        = some ([], [], []))
    ∧ (¬(([] : JsonRecord) ∈ ([] : List JsonRecord)
          ∧ ([] : JsonRecord) ∈ ([] : List JsonRecord))
      ∧ ¬(([] : JsonRecord) ∈ ([] : List JsonRecord)
          ∧ ([] : JsonRecord) ∈ ([] : List JsonRecord))
      ∧ ¬(([] : JsonRecord) ∈ ([] : List JsonRecord)
          ∧ ([] : JsonRecord) ∈ ([] : List JsonRecord))) :=
  ⟨⟨by decide, by decide, by decide, rfl⟩,
   separate_environments_disjoint_buckets (by decide) (by decide) (by decide)
     [[("event_properties_url", Json.str "u")]] [] [] [] rfl []⟩

/-- C8 scenario: the concrete raw record with `$event_type` = `click` and a
nested `event_properties.url` pointing at `studio.masterwizr.com`
normalizes to a record with keys `event_type` and `event_properties_url`
(no `$` anywhere in the keys), gets domain `studio.masterwizr.com`, and is
routed to the production bucket's output. -/
theorem scenario_production_routing :
    clean_data
        [[("$event_type", Json.str "click"),
          ("event_properties",
            Json.obj [("url", Json.str "https://studio.masterwizr.com/x")])]]
      = [[("event_type", Json.str "click"),
          ("event_properties_url", Json.str "https://studio.masterwizr.com/x")]]
    ∧ (∀ kv ∈ ([("event_type", Json.str "click"),
          ("event_properties_url", Json.str "https://studio.masterwizr.com/x")] :
          JsonRecord), '$' ∉ kv.1.toList)
    ∧ apply_domain
        [("event_type", Json.str "click"),
         ("event_properties_url", Json.str "https://studio.masterwizr.com/x")]
      = some "studio.masterwizr.com"
    ∧ "studio.masterwizr.com" ∈ PRODUCTION_DOMAINS
    ∧ separate_environments (clean_data
        [[("$event_type", Json.str "click"),
          ("event_properties",
            Json.obj [("url", Json.str "https://studio.masterwizr.com/x")])]])
      = some ([], [],
          [[("event_type", Json.str "click"),
            ("event_properties_url", Json.str "https://studio.masterwizr.com/x"),
            ("domain", Json.str "studio.masterwizr.com")]]) :=
  ⟨rfl, by decide, rfl, by decide, rfl⟩

/-- C9: when any raw source of the batch fails to parse, the run returns
the 500 failure result and produces no partial output: every bucket's
collection is untouched and no upload is attempted. -/
theorem parse_failure_aborts_run (conn_ok : String → Bool)
    (db : String → List JsonRecord) (sources : List (Option (List JsonRecord)))
    (h : none ∈ sources) :
    (download_to_mongo conn_ok db sources).1 = db
    ∧ (download_to_mongo conn_ok db sources).2.1 = []
    ∧ (download_to_mongo conn_ok db sources).2.2 = ⟨500, "failed"⟩ := by
  have hp := parse_sources_none sources h
  unfold download_to_mongo
  rw [hp]
  exact ⟨rfl, rfl, rfl⟩

/-- Witness for the C9 theorem at a single unparsable source. -/
theorem parse_failure_aborts_run_witness :
    ((none : Option (List JsonRecord)) ∈ [(none : Option (List JsonRecord))])
    ∧ ((download_to_mongo (fun _ => true) (fun _ => ([] : List JsonRecord)) [none]).1
        = (fun _ => ([] : List JsonRecord))
      ∧ (download_to_mongo (fun _ => true) (fun _ => ([] : List JsonRecord)) [none]).2.1
        = []
      ∧ (download_to_mongo (fun _ => true) (fun _ => ([] : List JsonRecord)) [none]).2.2
        = ⟨500, "failed"⟩) :=
  ⟨List.mem_singleton.mpr rfl,
   parse_failure_aborts_run (fun _ => true) (fun _ => []) [none]
     (List.mem_singleton.mpr rfl)⟩

/-- C10 counterexample: a run whose sources all parse can still fail.  The
single source parses to one record without `event_properties.url`; the
normalized frame then has no URL column, the classification raises
`KeyError`, the generic handler catches it, and the run returns the 500
failure result despite the successful parse. -/
theorem run_success_keyerror_cex :
    ((none : Option (List JsonRecord)) ∉ [some [[("event_type", Json.str "click")]]])
    ∧ (download_to_mongo (fun _ => true) (fun _ => ([] : List JsonRecord))
        [some [[("event_type", Json.str "click")]]]).2.2 = ⟨500, "failed"⟩ :=
  ⟨by simp, rfl⟩

/-- C10 amended: for every run in which the sources are listed and parsed
successfully and the classification does not fault (the batch carries the
URL column, so `process_and_upload_data` succeeds), the run returns the 200
success result, whatever the connection outcomes of the per-bucket loads
are — load failures are handled inside `upload_to_mongo` and never reach
the run's returned status.  A parse-success run whose batch has no URL
column instead returns 500 via the classification `KeyError`. -/
theorem run_status_success (conn_ok : String → Bool)
    (db : String → List JsonRecord) (sources : List (Option (List JsonRecord)))
    (l : List (List JsonRecord)) (hl : parse_sources sources = some l)
    (db2 : String → List JsonRecord) (trace : List (String × UploadResult))
    (hp : process_and_upload_data conn_ok db l.flatten = some (db2, trace)) :
    (download_to_mongo conn_ok db sources).2.2 = ⟨200, "success"⟩
    ∧ (download_to_mongo conn_ok db sources).1 = db2
    ∧ (download_to_mongo conn_ok db sources).2.1 = trace := by
  unfold download_to_mongo
  split
  · next heq =>
    rw [hl] at heq
    exact absurd heq (by simp)
  · next dfs heq =>
    rw [hl, Option.some.injEq] at heq
    subst heq
    split
    · next h0 =>
      rw [hp] at h0
      exact absurd h0 (by simp)
    · next db3 trace3 h0 =>
      rw [hp, Option.some.injEq, Prod.mk.injEq] at h0
      obtain ⟨ha, hb⟩ := h0
      subst ha
      subst hb
      exact ⟨rfl, rfl, rfl⟩

/-- Witness for the amended C10 theorem: one well-parsed source whose
record carries the URL field, with a connection that fails for every
bucket, still yields the 200 success result. -/
theorem run_status_success_witness :
    (parse_sources [some [[("event_properties_url", Json.str "u")]]]
        = some [[[("event_properties_url", Json.str "u")]]]
      ∧ (fun (_ : String) => false) "staging" = false)
    ∧ ∃ db2 trace,
        process_and_upload_data (fun _ => false) (fun _ => ([] : List JsonRecord))
          [[[("event_properties_url", Json.str "u")]]].flatten = some (db2, trace)
        ∧ ((download_to_mongo (fun _ => false) (fun _ => ([] : List JsonRecord))
              [some [[("event_properties_url", Json.str "u")]]]).2.2 = ⟨200, "success"⟩
          ∧ (download_to_mongo (fun _ => false) (fun _ => ([] : List JsonRecord))
              [some [[("event_properties_url", Json.str "u")]]]).1 = db2
          ∧ (download_to_mongo (fun _ => false) (fun _ => ([] : List JsonRecord))
              [some [[("event_properties_url", Json.str "u")]]]).2.1 = trace) :=
  ⟨⟨rfl, rfl⟩, _, _, rfl,
   run_status_success (fun _ => false) (fun _ => ([] : List JsonRecord))
     [some [[("event_properties_url", Json.str "u")]]]
     [[[("event_properties_url", Json.str "u")]]] rfl _ _ rfl⟩
